import Mathlib

/-!
Verification of the rbx-dom-bytes core: a shallow embedding of
`rbx_dom_weak/src/instance.rs` (InstanceBuilder, Instance) and
`rbx_binary/src/serializer/error.rs` (Error, InnerError), with theorems
checking the natural-language specification against the code.

Rust's `Ustr` interned strings are modelled as `String`, `Ref` as
`Option Nat` (where `none` is the distinguished null referent and
`Ref::new()` yields a fresh non-null value supplied here as a parameter),
`Vec` as `List`, `HashMap<i32, usize>` as an association list, and
`std::io::Error` as an opaque message `String`. Methods taking `&mut self`
are modelled by explicit state passing, so an in-place mutator and its
consuming counterpart are both functions `InstanceBuilder → ... →
InstanceBuilder`.
-/

namespace RbxDomBytes

/-- Model of `rbx_types::Ref`: an opaque identifier with a distinguished
null value (`none`). -/
abbrev Ref := Option Nat

/-- Model of `rbx_types::Variant`: a closed tagged union of property value
kinds. The claims under verification never inspect the payload of a
variant, so a representative subset of kinds suffices. -/
inductive Variant where
  | Bool (b : Bool)
  | Int32 (n : Int)
  | Str (s : String)
  | Reference (r : Ref)
deriving DecidableEq

/-- Model of `InstanceBuilder` (`rbx_dom_weak/src/instance.rs`, lines
34-42): referent, name, class, insertion-ordered property list, ordered
child list, optional binary referent. A nested inductive because children
are themselves builders. -/
inductive InstanceBuilder where
  | mk (referent : Ref) (name : String) («class» : String)
      (properties : List (String × Variant))
      (children : List InstanceBuilder)
      (binary_referent : Option Int) : InstanceBuilder

/-- Field accessor for `InstanceBuilder.referent`. -/
def InstanceBuilder.referent : InstanceBuilder → Ref
  | .mk r _ _ _ _ _ => r

/-- Field accessor for `InstanceBuilder.name`. -/
def InstanceBuilder.name : InstanceBuilder → String
  | .mk _ n _ _ _ _ => n

/-- Field accessor for `InstanceBuilder.class`. -/
def InstanceBuilder.«class» : InstanceBuilder → String
  | .mk _ _ c _ _ _ => c

/-- Field accessor for `InstanceBuilder.properties`. -/
def InstanceBuilder.properties : InstanceBuilder → List (String × Variant)
  | .mk _ _ _ p _ _ => p

/-- Field accessor for `InstanceBuilder.children`. -/
def InstanceBuilder.children : InstanceBuilder → List InstanceBuilder
  | .mk _ _ _ _ ch _ => ch

/-- Field accessor for `InstanceBuilder.binary_referent`. -/
def InstanceBuilder.binary_referent : InstanceBuilder → Option Int
  | .mk _ _ _ _ _ b => b

/-- Model of `InstanceBuilder::new` (lines 47-59): the fresh referent
produced by `Ref::new()` is passed in as `fresh`; the name is initialised
from the class. -/
def InstanceBuilder.new (fresh : Nat) («class» : String) : InstanceBuilder :=
  .mk (some fresh) «class» «class» [] [] none

/-- Model of `InstanceBuilder::with_property_capacity` (lines 63-75): a
`Vec` with reserved capacity holds the same elements as an empty one, so
`capacity` does not affect the resulting state. -/
def InstanceBuilder.with_property_capacity (fresh : Nat) («class» : String)
    (_capacity : Nat) : InstanceBuilder :=
  .mk (some fresh) «class» «class» [] [] none

/-- Model of `InstanceBuilder::empty` (lines 78-87). -/
def InstanceBuilder.empty (fresh : Nat) : InstanceBuilder :=
  .mk (some fresh) "" "" [] [] none

/-- Model of `InstanceBuilder::with_referent` (lines 95-100): replaces the
referent, keeping every other field via `..self`. -/
def InstanceBuilder.with_referent : InstanceBuilder → Ref → InstanceBuilder
  | .mk _ n c p ch b, r => .mk r n c p ch b

/-- Model of `InstanceBuilder::with_binary_referent` (lines 103-106). -/
def InstanceBuilder.with_binary_referent : InstanceBuilder → Int → InstanceBuilder
  | .mk r n c p ch _, br => .mk r n c p ch (some br)

/-- Model of `InstanceBuilder::with_name` (lines 109-114). -/
def InstanceBuilder.with_name : InstanceBuilder → String → InstanceBuilder
  | .mk r _ c p ch b, n => .mk r n c p ch b

/-- Model of `InstanceBuilder::set_name` (lines 117-119), the `&mut self`
counterpart of `with_name`, as a state-passing function. -/
def InstanceBuilder.set_name : InstanceBuilder → String → InstanceBuilder
  | .mk r _ c p ch b, n => .mk r n c p ch b

/-- Model of `InstanceBuilder::with_class` (lines 122-127). -/
def InstanceBuilder.with_class : InstanceBuilder → String → InstanceBuilder
  | .mk r n _ p ch b, c => .mk r n c p ch b

/-- Model of `InstanceBuilder::set_class` (lines 130-132). -/
def InstanceBuilder.set_class : InstanceBuilder → String → InstanceBuilder
  | .mk r n _ p ch b, c => .mk r n c p ch b

/-- Model of `InstanceBuilder::with_property` (lines 135-138):
`Vec::push` appends at the end. -/
def InstanceBuilder.with_property : InstanceBuilder → String → Variant → InstanceBuilder
  | .mk r n c p ch b, k, v => .mk r n c (p ++ [(k, v)]) ch b

/-- Model of `InstanceBuilder::add_property` (lines 141-143). -/
def InstanceBuilder.add_property : InstanceBuilder → String → Variant → InstanceBuilder
  | .mk r n c p ch b, k, v => .mk r n c (p ++ [(k, v)]) ch b

/-- Model of `InstanceBuilder::has_property` (lines 146-149):
`iter().any(|(k, _)| *k == key)`. -/
def InstanceBuilder.has_property (self : InstanceBuilder) (key : String) : Bool :=
  self.properties.any (fun kv => kv.1 == key)

/-- Model of `InstanceBuilder::with_properties` (lines 152-162):
`Vec::extend` appends the iterator's items in order. -/
def InstanceBuilder.with_properties : InstanceBuilder → List (String × Variant) → InstanceBuilder
  | .mk r n c p ch b, props => .mk r n c (p ++ props) ch b

/-- Model of `InstanceBuilder::add_properties` (lines 165-173). -/
def InstanceBuilder.add_properties : InstanceBuilder → List (String × Variant) → InstanceBuilder
  | .mk r n c p ch b, props => .mk r n c (p ++ props) ch b

/-- Model of `InstanceBuilder::with_child` (lines 176-179). -/
def InstanceBuilder.with_child : InstanceBuilder → InstanceBuilder → InstanceBuilder
  | .mk r n c p ch b, child => .mk r n c p (ch ++ [child]) b

/-- Model of `InstanceBuilder::add_child` (lines 182-184). -/
def InstanceBuilder.add_child : InstanceBuilder → InstanceBuilder → InstanceBuilder
  | .mk r n c p ch b, child => .mk r n c p (ch ++ [child]) b

/-- Model of `InstanceBuilder::with_children` (lines 189-195). -/
def InstanceBuilder.with_children : InstanceBuilder → List InstanceBuilder → InstanceBuilder
  | .mk r n c p ch b, cs => .mk r n c p (ch ++ cs) b

/-- Model of `InstanceBuilder::add_children` (lines 200-205). -/
def InstanceBuilder.add_children : InstanceBuilder → List InstanceBuilder → InstanceBuilder
  | .mk r n c p ch b, cs => .mk r n c p (ch ++ cs) b

/-- Model of `Instance` (`rbx_dom_weak/src/instance.rs`, lines 212-230).
The `UstrMap<Variant>` property map is modelled as an association list;
the claims under verification do not inspect it. -/
structure Instance where
  referent : Ref
  children : List Ref
  parent : Ref
  name : String
  «class» : String
  properties : List (String × Variant)
  binary_referent : Option Int

/-- Model of `Instance::byte_size` (lines 260-266):
`byte_sizes.get(&binary_ref).copied().unwrap_or(0)` when the binary
referent is present, `0` otherwise. The `HashMap<i32, usize>` is an
association list with unique keys; `get` is `List.lookup`. -/
def Instance.byte_size (self : Instance) (byte_sizes : List (Int × Nat)) : Nat :=
  match self.binary_referent with
  | some binary_ref => (byte_sizes.lookup binary_ref).getD 0
  | none => 0

/-- Model of `InnerError` (`rbx_binary/src/serializer/error.rs`, lines
21-84): the five failure variants of serialization, with the exact field
lists of the source (the `&'static str` of `valid_type_names` is a single
string). -/
inductive InnerError where
  | Io (source : String)
  | PropTypeMismatch (type_name : String) (prop_name : String)
      (valid_type_names : String) (actual_type_name : String)
      (instance_full_name : String)
  | UnsupportedPropType (type_name : String) (prop_name : String)
      (prop_type : String)
  | InvalidPropValue (instance_full_name : String) (type_name : String)
      (prop_name : String) (prop_type : String)
  | InvalidInstanceId (referent : Ref)
deriving DecidableEq

/-- Model of the opaque `Error` wrapper (lines 7-11): a single struct
holding one boxed `InnerError`. -/
structure Error where
  source : InnerError
deriving DecidableEq

/-- Model of `impl From<InnerError> for Error` (lines 13-19). -/
def Error.fromInner (inner : InnerError) : Error :=
  ⟨inner⟩

/-- Discriminator: whether an `InnerError` is the `PropTypeMismatch`
variant. -/
def InnerError.isPropTypeMismatch : InnerError → Bool
  | .PropTypeMismatch _ _ _ _ _ => true
  | _ => false

/-- Modelled from the spec: the serializer body is not under `src/` (only
its error type is), so this follows §4.4 step 3 of the spec —
reference-typed values are compact ids or a null sentinel (`-1`), and if
the referenced `Referent` does not exist in the dom being serialized
(there is no compact id assigned to it), serialization fails with
`InvalidInstanceId` carrying that referent. `idMap` is the compact-id
assignment built over the dom's instances in step 1. -/
def serializeRefProp (idMap : List (Nat × Int)) : Ref → Except InnerError Int
  | none => .ok (-1)
  | some r =>
    match idMap.lookup r with
    | some id => .ok id
    | none => .error (.InvalidInstanceId (some r))

/-- C1: the serialization error type wraps exactly one of the five
variants `Io`, `PropTypeMismatch`, `UnsupportedPropType`,
`InvalidPropValue`, `InvalidInstanceId`; the disjunction is exhaustive, so
no other failure kind exists in the taxonomy. -/
theorem error_taxonomy_five_variants (e : Error) :
    (∃ s, e.source = InnerError.Io s) ∨
    (∃ t p v a i, e.source = InnerError.PropTypeMismatch t p v a i) ∨
    (∃ t p pt, e.source = InnerError.UnsupportedPropType t p pt) ∨
    (∃ i t p pt, e.source = InnerError.InvalidPropValue i t p pt) ∨
    (∃ r, e.source = InnerError.InvalidInstanceId r) := by
  obtain ⟨s⟩ := e
  cases s with
  | Io s => exact Or.inl ⟨s, rfl⟩
  | PropTypeMismatch t p v a i => exact Or.inr (Or.inl ⟨t, p, v, a, i, rfl⟩)
  | UnsupportedPropType t p pt => exact Or.inr (Or.inr (Or.inl ⟨t, p, pt, rfl⟩))
  | InvalidPropValue i t p pt =>
      exact Or.inr (Or.inr (Or.inr (Or.inl ⟨i, t, p, pt, rfl⟩)))
  | InvalidInstanceId r => exact Or.inr (Or.inr (Or.inr (Or.inr ⟨r, rfl⟩)))

/-- C2: every consuming mutator and its in-place counterpart produce
identical end states: `with_name`/`set_name`, `with_class`/`set_class`,
`with_property`/`add_property`, `with_properties`/`add_properties`,
`with_child`/`add_child`, `with_children`/`add_children`. -/
theorem mutator_styles_equivalent (b : InstanceBuilder) (n c k : String)
    (v : Variant) (ps : List (String × Variant)) (child : InstanceBuilder)
    (cs : List InstanceBuilder) :
    b.with_name n = b.set_name n ∧
    b.with_class c = b.set_class c ∧
    b.with_property k v = b.add_property k v ∧
    b.with_properties ps = b.add_properties ps ∧
    b.with_child child = b.add_child child ∧
    b.with_children cs = b.add_children cs := by
  obtain ⟨r, nm, cl, p, ch, br⟩ := b
  exact ⟨rfl, rfl, rfl, rfl, rfl, rfl⟩

/-- C3: an instance whose binary identifier is absent reports
`byte_size = 0` for every byte-size table. -/
theorem byte_size_zero_without_binary_referent (inst : Instance)
    (byte_sizes : List (Int × Nat)) (h : inst.binary_referent = none) :
    inst.byte_size byte_sizes = 0 := by
  simp [Instance.byte_size, h]

/-- Witness for C3 at a concrete in-memory instance and a nonempty
byte-size table. -/
theorem byte_size_zero_without_binary_referent_witness :
    (⟨some 1, [], none, "Part", "Part", [], none⟩ : Instance).binary_referent
        = none ∧
    (⟨some 1, [], none, "Part", "Part", [], none⟩ : Instance).byte_size
        [(3, 10), (7, 2)] = 0 :=
  ⟨rfl, byte_size_zero_without_binary_referent _ [(3, 10), (7, 2)] rfl⟩

/-- C4: `has_property k` returns `true` iff at least one entry with key
`k` occurs in the builder's property list, regardless of how many
duplicate entries with that key are present. -/
theorem has_property_iff_mem (b : InstanceBuilder) (k : String) :
    b.has_property k = true ↔ ∃ e ∈ b.properties, e.1 = k := by
  obtain ⟨r, nm, cl, p, ch, br⟩ := b
  simp [InstanceBuilder.has_property, InstanceBuilder.properties,
    List.any_eq_true]

/-- C5: `with_property`, `add_property`, `with_properties` and
`add_properties` append at the end of the insertion-ordered property
list, leaving every existing entry in place, even when the key is already
present. -/
theorem property_list_append (b : InstanceBuilder) (k : String) (v : Variant)
    (ps : List (String × Variant)) :
    (b.with_property k v).properties = b.properties ++ [(k, v)] ∧
    (b.add_property k v).properties = b.properties ++ [(k, v)] ∧
    (b.with_properties ps).properties = b.properties ++ ps ∧
    (b.add_properties ps).properties = b.properties ++ ps := by
  obtain ⟨r, nm, cl, p, ch, br⟩ := b
  exact ⟨rfl, rfl, rfl, rfl⟩

/-- C6: the builder returned by `InstanceBuilder::new` (and by
`with_property_capacity` for any capacity) has its display name equal to
the class name. -/
theorem new_builder_name_defaults_to_class (fresh : Nat) (c : String)
    (capacity : Nat) :
    (InstanceBuilder.new fresh c).name = c ∧
    (InstanceBuilder.with_property_capacity fresh c capacity).name = c :=
  ⟨rfl, rfl⟩

/-- C7: every `PropTypeMismatch` error is determined by exactly five
pieces of diagnostic context: the class name, the property name, the
valid type names, the actual type name, and the full name of the
offending instance. -/
theorem prop_type_mismatch_carries_five_fields (e : InnerError)
    (h : e.isPropTypeMismatch = true) :
    ∃ type_name prop_name valid_type_names actual_type_name
        instance_full_name,
      e = InnerError.PropTypeMismatch type_name prop_name valid_type_names
            actual_type_name instance_full_name := by
  cases e with
  | PropTypeMismatch t p v a i => exact ⟨t, p, v, a, i, rfl⟩
  | Io s => simp [InnerError.isPropTypeMismatch] at h
  | UnsupportedPropType t p pt => simp [InnerError.isPropTypeMismatch] at h
  | InvalidPropValue i t p pt => simp [InnerError.isPropTypeMismatch] at h
  | InvalidInstanceId r => simp [InnerError.isPropTypeMismatch] at h

/-- Witness for C7 at a concrete mismatch error. -/
theorem prop_type_mismatch_carries_five_fields_witness :
    (InnerError.PropTypeMismatch "Part" "Size" "Vector3" "Int32"
        "game.Workspace.Part").isPropTypeMismatch = true ∧
    ∃ type_name prop_name valid_type_names actual_type_name
        instance_full_name,
      InnerError.PropTypeMismatch "Part" "Size" "Vector3" "Int32"
          "game.Workspace.Part"
        = InnerError.PropTypeMismatch type_name prop_name valid_type_names
            actual_type_name instance_full_name :=
  ⟨rfl, prop_type_mismatch_carries_five_fields _ rfl⟩

/-- C8: when a reference-typed property's target referent has no compact
id assigned in the dom being serialized, serialization fails with
`InvalidInstanceId` carrying that referent. -/
theorem missing_referent_invalid_instance_id (idMap : List (Nat × Int))
    (r : Nat) (h : idMap.lookup r = none) :
    serializeRefProp idMap (some r)
      = Except.error (InnerError.InvalidInstanceId (some r)) := by
  simp [serializeRefProp, h]

/-- Witness for C8 at a concrete id assignment that misses referent 5. -/
theorem missing_referent_invalid_instance_id_witness :
    ([(1, 0), (2, 1)] : List (Nat × Int)).lookup 5 = none ∧
    serializeRefProp [(1, 0), (2, 1)] (some 5)
      = Except.error (InnerError.InvalidInstanceId (some 5)) :=
  ⟨rfl, missing_referent_invalid_instance_id [(1, 0), (2, 1)] 5 rfl⟩

/-- C9: when the binary identifier is present but the byte-size table has
no entry for it, `byte_size` totally returns `0` rather than failing. -/
theorem byte_size_zero_on_missing_table_entry (inst : Instance)
    (byte_sizes : List (Int × Nat)) (r : Int)
    (h1 : inst.binary_referent = some r)
    (h2 : byte_sizes.lookup r = none) :
    inst.byte_size byte_sizes = 0 := by
  simp [Instance.byte_size, h1, h2]

/-- Witness for C9 at a concrete deserialized instance whose binary
referent 4 is absent from the table. -/
theorem byte_size_zero_on_missing_table_entry_witness :
    (⟨some 1, [], none, "Part", "Part", [], some 4⟩ : Instance).binary_referent
        = some 4 ∧
    ([(3, 10)] : List (Int × Nat)).lookup 4 = none ∧
    (⟨some 1, [], none, "Part", "Part", [], some 4⟩ : Instance).byte_size
        [(3, 10)] = 0 :=
  ⟨rfl, rfl,
    byte_size_zero_on_missing_table_entry _ [(3, 10)] 4 rfl rfl⟩

/-- C10: `with_referent` changes only the referent field; the name,
class, property list, children list and binary identifier are unchanged. -/
theorem with_referent_frame (b : InstanceBuilder) (r : Ref) :
    (b.with_referent r).referent = r ∧
    (b.with_referent r).name = b.name ∧
    (b.with_referent r).«class» = b.«class» ∧
    (b.with_referent r).properties = b.properties ∧
    (b.with_referent r).children = b.children ∧
    (b.with_referent r).binary_referent = b.binary_referent := by
  obtain ⟨r0, nm, cl, p, ch, br⟩ := b
  exact ⟨rfl, rfl, rfl, rfl, rfl, rfl⟩

end RbxDomBytes
